import Mathlib

/-!
Verification of the Express + TypeScript OpenAI gateway server.

The server (src/index.ts and its two extended variants) exposes seven
routes; each handler destructures fields out of `req.body`, performs
presence validation, makes at most one call to the OpenAI client inside
a try block, and reshapes the result, with the catch block mapping any
thrown value to an HTTP 500 body.  Below, each handler is embedded as a
pure function from its request-body fields and the outcome of the (at
most one) provider call to a triple of HTTP status, response body, and
number of provider invocations performed.  The cosine-similarity
computation is embedded over real-number vectors, and the
`toFixed(2)`-based percentage formatting over exact rationals.
-/

namespace Gateway

/-- JavaScript runtime values, to the extent the handlers inspect them:
request-body fields are arbitrary JSON/JS values, and the handlers test
them only for truthiness, array-ness, length and element access.
`jnan` stands for the number NaN, which is falsy. -/
inductive JVal where
  | undefined
  | jnull
  | jbool (b : Bool)
  | jnum (q : ℚ)
  | jnan
  | jstr (s : String)
  | jarr (elems : List JVal)

/-- ECMAScript ToBoolean, the semantics of the `!field` presence checks:
`undefined`, `null`, `false`, `0`, `NaN` and the empty string are falsy,
everything else (objects and arrays included) is truthy. -/
def toBoolean : JVal → Bool
  | .undefined => false
  | .jnull => false
  | .jbool b => b
  | .jnum q => decide (q ≠ 0)
  | .jnan => false
  | .jstr s => decide (s ≠ "")
  | .jarr _ => true

/-- `Array.isArray` -/
def isArray : JVal → Bool
  | .jarr _ => true
  | _ => false

/-- The element list of an array value (`[]` on non-arrays; the handlers
only read it after an `Array.isArray` check has passed). -/
def arrayElems : JVal → List JVal
  | .jarr xs => xs
  | _ => []

/-- A value thrown inside a handler's try block: either an `Error`
instance carrying a `message` string, or any other thrown value
(which carries no message). -/
inductive Thrown where
  | errObj (message : String)
  | nonError

/-- The `details` field every catch block computes:
`error instanceof Error ? error.message : "Unknown error"`. -/
def errorDetails : Thrown → String
  | .errObj m => m
  | .nonError => "Unknown error"

/-- One element of `completion.choices` for the chat route.
`messageContent` collapses the `choices[0]?.message?.content` optional
chain: it is `undefined` (or `null`) when any link is absent. -/
structure ChatChoice where
  messageContent : JVal

/-- The value resolved by `openai.chat.completions.create`. -/
structure ChatCompletionResp where
  choices : List ChatChoice
  usage : JVal
  model : String

/-- One element of `completion.choices` for the legacy completion route;
`text` is absent when the optional chain `choices[0]?.text` is undefined. -/
structure CompletionChoice where
  text : Option String

/-- The value resolved by `openai.completions.create`. -/
structure CompletionResp where
  choices : List CompletionChoice
  usage : JVal
  model : String

/-- One entry of the provider's model list; `object` stands for the
extra provider fields that the projection drops. -/
structure ModelEntry where
  id : String
  created : Int
  owned_by : String
  object : String

/-- The value resolved by `openai.models.list`. -/
structure ModelsResp where
  data : List ModelEntry

/-- One element of `embeddings.data`: a numeric vector. -/
structure EmbeddingItem where
  embedding : List ℝ

/-- The value resolved by `openai.embeddings.create`. -/
structure EmbeddingsResp where
  data : List EmbeddingItem
  usage : JVal
  model : String

/-- One item of the `/api/embeddings/batch` response array. -/
structure BatchItem where
  index : Nat
  text : JVal
  embedding : List ℝ
  dimensions : Nat

/-- The JSON body a handler responds with. -/
inductive RespBody where
  | errOnly (error : String)
  | errDetails (error : String) (details : String)
  | chatOk (response : JVal) (usage : JVal) (model : String)
  | completionOk (response : String) (usage : JVal) (model : String)
  | modelsOk (models : List (String × Int × String))
  | embeddingRaw (embedding : EmbeddingsResp)
  | batchOk (embeddings : List BatchItem) (usage : JVal) (model : String)
      (total_embeddings : Nat)
  | similarityOk (text1 text2 : JVal) (embedding1 embedding2 : List ℝ)
      (usage : JVal) (model : String)

/-- Outcome of one request: HTTP status, JSON body, and how many
outbound provider calls the handler performed. -/
structure HandlerResult where
  status : Nat
  body : RespBody
  providerCalls : Nat

/-- POST /api/chat: validate `message`, call the provider, answer with
the first choice's content or a placeholder. -/
def chatHandler (message : JVal)
    (provider : Except Thrown ChatCompletionResp) : HandlerResult :=
  if !toBoolean message then
    ⟨400, .errOnly "Message is required", 0⟩
  else
    match provider with
    | .error e =>
        ⟨500, .errDetails "Failed to get response from OpenAI" (errorDetails e), 1⟩
    | .ok c =>
        let content := ((c.choices.head?).map (·.messageContent)).getD .undefined
        ⟨200, .chatOk (if toBoolean content then content else .jstr "No response generated")
          c.usage c.model, 1⟩

/-- POST /api/completion: validate `prompt`, call the provider, answer
with the trimmed first choice text or a placeholder. -/
def completionHandler (prompt : JVal)
    (provider : Except Thrown CompletionResp) : HandlerResult :=
  if !toBoolean prompt then
    ⟨400, .errOnly "Prompt is required", 0⟩
  else
    match provider with
    | .error e =>
        ⟨500, .errDetails "Failed to get completion from OpenAI" (errorDetails e), 1⟩
    | .ok c =>
        let t := (c.choices.head?.bind (·.text)).map String.trim
        ⟨200, .completionOk
          (match t with
            | some s => if s ≠ "" then s else "No response generated"
            | none => "No response generated")
          c.usage c.model, 1⟩

/-- GET /api/models: no validation; project each entry to
`(id, created, owned_by)`, order preserved. -/
def modelsHandler (provider : Except Thrown ModelsResp) : HandlerResult :=
  match provider with
  | .error e =>
      ⟨500, .errDetails "Failed to fetch models from OpenAI" (errorDetails e), 1⟩
  | .ok m =>
      ⟨200, .modelsOk (m.data.map fun entry => (entry.id, entry.created, entry.owned_by)), 1⟩

/-- POST /api/embedding, variant without `text` validation (the logging
variant of the server): the provider is called whether or not `text` is
present, and the raw provider result is returned under `embedding`. -/
def embeddingHandlerNoCheck (text : JVal)
    (provider : Except Thrown EmbeddingsResp) : HandlerResult :=
  match provider with
  | .error e =>
      ⟨500, .errDetails "Failed to get embedding from OpenAI" (errorDetails e), 1⟩
  | .ok r => ⟨200, .embeddingRaw r, 1⟩

/-- POST /api/embedding, variant requiring `text` (400 when falsy).
On success the raw provider result is returned under `embedding`. -/
def embeddingHandlerChecked (text : JVal)
    (provider : Except Thrown EmbeddingsResp) : HandlerResult :=
  if !toBoolean text then
    ⟨400, .errOnly "Text is required", 0⟩
  else
    match provider with
    | .error e =>
        ⟨500, .errDetails "Failed to get embedding from OpenAI" (errorDetails e), 1⟩
    | .ok r => ⟨200, .embeddingRaw r, 1⟩

/-- POST /api/embeddings/batch: `texts` must be a non-empty array of at
most 2048 elements; the response items are built by mapping over the
provider's `data` with the JS `map((item, index) => ...)`, pairing each
vector with `texts[index]` (which is `undefined` out of range). -/
def batchHandler (texts : JVal)
    (provider : Except Thrown EmbeddingsResp) : HandlerResult :=
  if !toBoolean texts || !isArray texts || (arrayElems texts).length == 0 then
    ⟨400, .errOnly "Texts array is required and must not be empty", 0⟩
  else if (arrayElems texts).length > 2048 then
    ⟨400, .errOnly "Maximum 2048 texts allowed per batch", 0⟩
  else
    match provider with
    | .error e =>
        ⟨500, .errDetails "Failed to get batch embeddings from OpenAI" (errorDetails e), 1⟩
    | .ok r =>
        ⟨200, .batchOk
          (r.data.mapIdx fun index item =>
            ⟨index, (arrayElems texts).getD index .undefined,
              item.embedding, item.embedding.length⟩)
          r.usage r.model r.data.length, 1⟩

/-- The message of the TypeError raised inside the similarity route's
try block when `embeddings.data` has fewer than two entries, so that
`data[0].embedding` or `data[1].embedding` reads a property of
`undefined`; the catch block surfaces it like any other Error message.
The exact runtime wording is irrelevant to the claims. -/
def simTypeErrorDetails : String := "Cannot read properties of undefined"

/-- POST /api/embeddings/similarity: validate `text1`/`text2`, make one
batched embedding call for the pair, and answer with both vectors.  The
numeric fields derived from the two vectors (`cosine_similarity`,
`similarity_percentage`) are modelled separately by `cosineSimilarity`
and `mkSimilarityNumericFields` below, embedded from the same source
lines. -/
def similarityHandler (text1 text2 : JVal)
    (provider : Except Thrown EmbeddingsResp) : HandlerResult :=
  if !toBoolean text1 || !toBoolean text2 then
    ⟨400, .errOnly "Both text1 and text2 are required", 0⟩
  else
    match provider with
    | .error e =>
        ⟨500, .errDetails "Failed to calculate embedding similarity" (errorDetails e), 1⟩
    | .ok r =>
        match r.data with
        | e1 :: e2 :: _ =>
            ⟨200, .similarityOk text1 text2 e1.embedding e2.embedding r.usage r.model, 1⟩
        | _ => ⟨500, .errDetails "Failed to calculate embedding similarity" simTypeErrorDetails, 1⟩

/-!  The cosine-similarity computation of the similarity route, over
real-number vectors.  The JS reduces are
`embedding1.reduce((sum, a, i) => sum + a * embedding2[i], 0)` and
`embedding.reduce((sum, a) => sum + a * a, 0)`; for the equal-length
vectors the route operates on, the former is the sum of pairwise
products, embedded with `zipWith`. -/

/-- `embedding.reduce((sum, a) => sum + a * a, 0)` -/
def sumSquares (a : List ℝ) : ℝ := (a.map fun x => x * x).sum

/-- `embedding1.reduce((sum, a, i) => sum + a * embedding2[i], 0)`
for equal-length vectors. -/
def dotProduct (a b : List ℝ) : ℝ := (List.zipWith (· * ·) a b).sum

/-- `Math.sqrt(embedding.reduce((sum, a) => sum + a * a, 0))` -/
noncomputable def magnitude (a : List ℝ) : ℝ := Real.sqrt (sumSquares a)

/-- `const cosineSimilarity = dotProduct / (magnitude1 * magnitude2)` -/
noncomputable def cosineSimilarity (a b : List ℝ) : ℝ :=
  dotProduct a b / (magnitude a * magnitude b)

/-!  The percentage formatting of the similarity route, over exact
rationals (every JS float value is an exact rational, and `toFixed`
is specified on that exact value for numbers below 10^21). -/

/-- Render `k < 100` as two decimal digits. -/
def twoDigits (k : Nat) : String :=
  if k < 10 then "0" ++ toString k else toString k

/-- Render a count of hundredths as a decimal numeral with exactly two
fraction digits. -/
def hundredthsString (n : Nat) : String :=
  toString (n / 100) ++ "." ++ twoDigits (n % 100)

/-- `Number.prototype.toFixed(2)` on a non-negative value: the integer
n minimising the distance of n/100 to the value, ties to the larger n,
rendered with two fraction digits. -/
def toFixedTwoPos (x : ℚ) : String :=
  hundredthsString (⌊x * 100 + 1 / 2⌋).toNat

/-- `Number.prototype.toFixed(2)`: ECMAScript splits off the sign and
formats the magnitude. -/
def toFixedTwo (x : ℚ) : String :=
  if x < 0 then "-" ++ toFixedTwoPos (-x) else toFixedTwoPos x

/-- The two numeric response fields of the similarity route, as built
from the computed cosine value `c`:
`cosine_similarity: cosineSimilarity` and
`similarity_percentage: (cosineSimilarity * 100).toFixed(2) + "%"`. -/
structure SimilarityNumericFields where
  cosine_similarity : ℚ
  similarity_percentage : String

/-- Lines 204-205 of the similarity handler's response object. -/
def mkSimilarityNumericFields (c : ℚ) : SimilarityNumericFields :=
  ⟨c, toFixedTwo (c * 100) ++ "%"⟩

/-! Supporting lemmas about the numeric definitions. -/

theorem sumSquares_nil : sumSquares [] = 0 := rfl

theorem sumSquares_cons (x : ℝ) (xs : List ℝ) :
    sumSquares (x :: xs) = x * x + sumSquares xs := by
  simp [sumSquares]

theorem sumSquares_nonneg (a : List ℝ) : 0 ≤ sumSquares a := by
  induction a with
  | nil => simp [sumSquares]
  | cons x xs ih =>
    rw [sumSquares_cons]
    nlinarith [mul_self_nonneg x]

theorem dotProduct_cons (x y : ℝ) (xs ys : List ℝ) :
    dotProduct (x :: xs) (y :: ys) = x * y + dotProduct xs ys := by
  simp [dotProduct]

/-- The inductive step of Cauchy-Schwarz: extending both vectors by one
coordinate preserves the inequality. -/
theorem cauchySchwarz_step (x y A B D : ℝ) (hA : 0 ≤ A) (hB : 0 ≤ B)
    (hD : D ^ 2 ≤ A * B) :
    (x * y + D) ^ 2 ≤ (x * x + A) * (y * y + B) := by
  rcases eq_or_lt_of_le hB with hB0 | hB0
  · have hD2 : D ^ 2 = 0 := le_antisymm (by nlinarith) (sq_nonneg D)
    have hD0 : D = 0 := by
      have := pow_eq_zero_iff (n := 2) (a := D) (by norm_num)
      exact this.mp hD2
    subst hD0
    nlinarith [mul_nonneg hA (sq_nonneg y)]
  · have hid : B * ((x * x + A) * (y * y + B) - (x * y + D) ^ 2)
        = (x * B - y * D) ^ 2 + (y * y + B) * (A * B - D ^ 2) := by ring
    have h1 : 0 ≤ (x * B - y * D) ^ 2 + (y * y + B) * (A * B - D ^ 2) :=
      add_nonneg (sq_nonneg _)
        (mul_nonneg (by nlinarith [mul_self_nonneg y]) (by linarith))
    have h2 : 0 ≤ (x * x + A) * (y * y + B) - (x * y + D) ^ 2 := by
      have := hid ▸ h1
      exact nonneg_of_mul_nonneg_right this hB0
    linarith

/-- Cauchy-Schwarz for the listwise dot product. -/
theorem dotProduct_sq_le (a b : List ℝ) :
    dotProduct a b ^ 2 ≤ sumSquares a * sumSquares b := by
  induction a generalizing b with
  | nil => simp [dotProduct, sumSquares]
  | cons x xs ih =>
    cases b with
    | nil => simp [dotProduct, sumSquares]
    | cons y ys =>
      rw [dotProduct_cons, sumSquares_cons, sumSquares_cons]
      exact cauchySchwarz_step x y (sumSquares xs) (sumSquares ys)
        (dotProduct xs ys) (sumSquares_nonneg xs) (sumSquares_nonneg ys) (ih ys)

theorem abs_dotProduct_le (a b : List ℝ) :
    |dotProduct a b| ≤ magnitude a * magnitude b := by
  rw [magnitude, magnitude, ← Real.sqrt_mul (sumSquares_nonneg a),
    ← Real.sqrt_sq_eq_abs]
  exact Real.sqrt_le_sqrt (dotProduct_sq_le a b)

theorem sumSquares_pos (a : List ℝ) (h : ∃ x ∈ a, x ≠ 0) :
    0 < sumSquares a := by
  induction a with
  | nil => simp at h
  | cons z zs ih =>
    rw [sumSquares_cons]
    obtain ⟨x, hx, hx0⟩ := h
    rcases List.mem_cons.mp hx with h1 | hmem
    · subst h1
      have h2 : 0 < x * x := mul_self_pos.mpr hx0
      have := sumSquares_nonneg zs
      linarith
    · have := ih ⟨x, hmem, hx0⟩
      nlinarith [mul_self_nonneg z]

theorem sumSquares_eq_zero (a : List ℝ) (h : ∀ x ∈ a, x = 0) :
    sumSquares a = 0 := by
  induction a with
  | nil => rfl
  | cons z zs ih =>
    rw [sumSquares_cons, h z (List.mem_cons_self z zs),
      ih fun x hx => h x (List.mem_cons_of_mem z hx)]
    ring

theorem dotProduct_comm (a b : List ℝ) : dotProduct a b = dotProduct b a := by
  rw [dotProduct, dotProduct, List.zipWith_comm_of_comm _ mul_comm]

/-- C2: For equal-length real vectors, the similarity route's cosine
value (a pure function of its inputs, hence deterministic) lies in
[-1, 1] whenever neither vector is all-zero; when either vector is
all-zero the computation divides by a zero denominator
`magnitude a * magnitude b` with no special-casing (the float outcome
NaN/Infinity of that division is outside the real-number model). -/
theorem cosineSimilarity_bounds_and_zero_unguarded (a b : List ℝ)
    (_hab : a.length = b.length) :
    ((∃ x ∈ a, x ≠ 0) → (∃ y ∈ b, y ≠ 0) →
      -1 ≤ cosineSimilarity a b ∧ cosineSimilarity a b ≤ 1)
    ∧ (((∀ x ∈ a, x = 0) ∨ (∀ y ∈ b, y = 0)) →
        magnitude a * magnitude b = 0
          ∧ cosineSimilarity a b = dotProduct a b / 0) := by
  constructor
  · intro ha hb
    have hma : 0 < magnitude a := Real.sqrt_pos.mpr (sumSquares_pos a ha)
    have hmb : 0 < magnitude b := Real.sqrt_pos.mpr (sumSquares_pos b hb)
    have habs : |cosineSimilarity a b| ≤ 1 := by
      rw [cosineSimilarity, abs_div, abs_of_pos (mul_pos hma hmb)]
      exact (div_le_one (mul_pos hma hmb)).mpr (abs_dotProduct_le a b)
    exact abs_le.mp habs
  · intro h
    have hz : magnitude a * magnitude b = 0 := by
      rcases h with h | h
      · simp only [magnitude]
        rw [sumSquares_eq_zero a h, Real.sqrt_zero, zero_mul]
      · simp only [magnitude]
        rw [sumSquares_eq_zero b h, Real.sqrt_zero, mul_zero]
    exact ⟨hz, by rw [cosineSimilarity, hz]⟩

/-- Closed instance of C2: the nonzero pair ([1,0], [0,1]) gets a
cosine value in [-1, 1]. -/
theorem cosineSimilarity_bounds_witness :
    -1 ≤ cosineSimilarity [1, 0] [0, 1] ∧ cosineSimilarity [1, 0] [0, 1] ≤ 1 :=
  (cosineSimilarity_bounds_and_zero_unguarded [1, 0] [0, 1] rfl).1
    ⟨1, by simp, one_ne_zero⟩ ⟨1, by simp, one_ne_zero⟩

/-- C3: the cosine similarity computation is symmetric in its two
equal-length vector arguments. -/
theorem cosineSimilarity_comm (a b : List ℝ) (_hab : a.length = b.length) :
    cosineSimilarity a b = cosineSimilarity b a := by
  rw [cosineSimilarity, cosineSimilarity, dotProduct_comm, mul_comm]

/-- Closed instance of C3 at the pair ([1,2], [3,4]). -/
theorem cosineSimilarity_comm_witness :
    cosineSimilarity [1, 2] [3, 4] = cosineSimilarity [3, 4] [1, 2] :=
  cosineSimilarity_comm [1, 2] [3, 4] rfl

/-- C4: the `similarity_percentage` field is the cosine value times
100, rounded to exactly two decimal places, with a trailing percent
sign: (i) the field is `toFixedTwo` of 100 times the response's
`cosine_similarity` field with "%" appended; (ii) on magnitudes the
rendered digit string represents a count n of hundredths within half a
hundredth of the exact value (rounding correctness of `toFixedTwo`);
(iii) negative values are the rendered magnitude prefixed with a minus
sign; (iv) cosine_similarity = 0.8765432 yields "87.65%". -/
theorem similarity_percentage_spec (c : ℚ) :
    (mkSimilarityNumericFields c).similarity_percentage
      = toFixedTwo ((mkSimilarityNumericFields c).cosine_similarity * 100) ++ "%"
    ∧ (∃ n : ℕ, toFixedTwo (|c| * 100) = hundredthsString n
        ∧ |(n : ℚ) - |c| * 100 * 100| ≤ 1 / 2)
    ∧ (c < 0 → toFixedTwo (c * 100) = "-" ++ toFixedTwo (|c| * 100))
    ∧ (mkSimilarityNumericFields (8765432 / 10000000)).similarity_percentage
        = "87.65%" := by
  refine ⟨rfl, ?_, ?_, ?_⟩
  · have hpos : ¬(|c| * 100 < 0) := not_lt.mpr (by positivity)
    refine ⟨(⌊(|c| * 100) * 100 + 1 / 2⌋).toNat, ?_, ?_⟩
    · rw [toFixedTwo, if_neg hpos, toFixedTwoPos]
    · have hy : (0 : ℚ) ≤ |c| * 100 * 100 + 1 / 2 := by positivity
      have hfl : (0 : ℤ) ≤ ⌊|c| * 100 * 100 + 1 / 2⌋ := Int.floor_nonneg.mpr hy
      have h3 : ((⌊|c| * 100 * 100 + 1 / 2⌋.toNat : ℕ) : ℚ)
          = ((⌊|c| * 100 * 100 + 1 / 2⌋ : ℤ) : ℚ) := by
        exact_mod_cast congrArg (fun z : ℤ => (z : ℚ)) (Int.toNat_of_nonneg hfl)
      have h1 : (⌊|c| * 100 * 100 + 1 / 2⌋ : ℚ) ≤ |c| * 100 * 100 + 1 / 2 :=
        Int.floor_le _
      have h2 : |c| * 100 * 100 + 1 / 2 - 1 < (⌊|c| * 100 * 100 + 1 / 2⌋ : ℚ) :=
        Int.sub_one_lt_floor _
      rw [h3, abs_le]
      constructor <;> linarith
  · intro hc
    have h1 : c * 100 < 0 := by nlinarith
    have h2 : ¬(|c| * 100 < 0) := not_lt.mpr (by positivity)
    rw [toFixedTwo, if_pos h1, toFixedTwo, if_neg h2, abs_of_neg hc]
    ring_nf
  · have h1 : ¬((8765432 / 10000000 : ℚ) * 100 < 0) := by norm_num
    have h2 : ⌊((8765432 / 10000000 : ℚ) * 100) * 100 + 1 / 2⌋ = 8765 := by
      norm_num
    show toFixedTwo ((8765432 / 10000000 : ℚ) * 100) ++ "%" = "87.65%"
    rw [toFixedTwo, if_neg h1, toFixedTwoPos, h2]
    decide

/-- Closed instance of C4: the inner sign-handling implication at
c = -1/2 (cosine -0.5 renders as minus the rendered magnitude). -/
theorem similarity_percentage_spec_witness :
    toFixedTwo ((-1 / 2 : ℚ) * 100) = "-" ++ toFixedTwo (|(-1 / 2 : ℚ)| * 100) :=
  (similarity_percentage_spec (-1 / 2)).2.2.1 (by norm_num)

/-- On a non-empty array of at most 2048 texts, the batch handler takes
the success path and maps the provider's data with `(item, index)`. -/
theorem batchHandler_ok_of_valid (ts : List JVal) (r : EmbeddingsResp)
    (h1 : ts.length ≠ 0) (h2 : ts.length ≤ 2048) :
    batchHandler (.jarr ts) (.ok r)
      = ⟨200, .batchOk
          (r.data.mapIdx fun index item =>
            ⟨index, ts.getD index .undefined, item.embedding, item.embedding.length⟩)
          r.usage r.model r.data.length, 1⟩ := by
  rw [batchHandler]
  have hc : (!toBoolean (.jarr ts) || !isArray (.jarr ts)
      || ((arrayElems (.jarr ts)).length == 0)) = false := by
    simp [toBoolean, isArray, arrayElems, h1]
  rw [hc]
  rw [if_neg (by simp)]
  rw [if_neg (by simpa [arrayElems] using not_lt.mpr h2)]
  rfl

/-- C1: on a batch request whose `texts` has length L with
1 ≤ L ≤ 2048 and a provider success returning one vector per text, the
200 response's `embeddings` array has exactly L items and item i has
`index` i, `text` texts[i], `embedding` the provider's i-th vector, and
`dimensions` that vector's length, in input order. -/
theorem batch_response_aligned (ts : List JVal) (r : EmbeddingsResp)
    (h1 : 1 ≤ ts.length) (h2 : ts.length ≤ 2048)
    (hr : r.data.length = ts.length) :
    ∃ items : List BatchItem,
      batchHandler (.jarr ts) (.ok r)
        = ⟨200, .batchOk items r.usage r.model r.data.length, 1⟩
      ∧ items.length = ts.length
      ∧ ∀ i : ℕ, ∀ hi : i < ts.length, ∃ e : List ℝ,
          r.data[i]? = some ⟨e⟩
          ∧ items[i]? = some ⟨i, ts[i], e, e.length⟩ := by
  refine ⟨_, batchHandler_ok_of_valid ts r (by omega) h2, ?_, ?_⟩
  · rw [List.length_mapIdx, hr]
  · intro i hi
    have hi' : i < r.data.length := by omega
    refine ⟨(r.data.get ⟨i, hi'⟩).embedding, ?_, ?_⟩
    · rw [List.getElem?_eq_getElem hi']
      rfl
    · have hil : i < (r.data.mapIdx fun index item =>
          (⟨index, ts.getD index .undefined, item.embedding,
            item.embedding.length⟩ : BatchItem)).length := by
        rw [List.length_mapIdx]; omega
      rw [List.getElem?_eq_getElem hil]
      have hmap := List.get_mapIdx r.data (fun index item =>
          (⟨index, ts.getD index .undefined, item.embedding,
            item.embedding.length⟩ : BatchItem)) i hi'
      rw [List.get_eq_getElem] at hmap
      rw [hmap]
      have hgetD : ts.getD i .undefined = ts[i] := by
        rw [List.getD_eq_getElem?_getD, List.getElem?_eq_getElem hi]
        rfl
      rw [hgetD]

/-- Closed instance of C1: two texts, two provider vectors. -/
theorem batch_response_aligned_witness :
    ∃ items : List BatchItem,
      batchHandler (.jarr [.jstr "a", .jstr "b"])
          (.ok ⟨[⟨[1, 2]⟩, ⟨[3, 4]⟩], .undefined, "m"⟩)
        = ⟨200, .batchOk items .undefined "m" 2, 1⟩
      ∧ items.length = 2
      ∧ ∀ i : ℕ, ∀ hi : i < 2, ∃ e : List ℝ,
          ([⟨[1, 2]⟩, ⟨[3, 4]⟩] : List EmbeddingItem)[i]? = some ⟨e⟩
          ∧ items[i]? = some ⟨i, [JVal.jstr "a", JVal.jstr "b"][i], e, e.length⟩ :=
  batch_response_aligned [.jstr "a", .jstr "b"]
    ⟨[⟨[1, 2]⟩, ⟨[3, 4]⟩], .undefined, "m"⟩ (by simp) (by simp) rfl

/-- C10: in every 200 batch response, `total_embeddings` equals the
length of the returned `embeddings` array, and both equal the number of
items in the provider's returned data, with no constraint tying that
count to the input length. -/
theorem batch_total_matches_data (ts : List JVal) (r : EmbeddingsResp)
    (h1 : 1 ≤ ts.length) (h2 : ts.length ≤ 2048) :
    ∃ items : List BatchItem,
      batchHandler (.jarr ts) (.ok r)
        = ⟨200, .batchOk items r.usage r.model r.data.length, 1⟩
      ∧ items.length = r.data.length := by
  refine ⟨_, batchHandler_ok_of_valid ts r (by omega) h2, ?_⟩
  rw [List.length_mapIdx]

/-- Closed instance of C10: one input text but three provider vectors;
the response still reports three items and `total_embeddings = 3`. -/
theorem batch_total_matches_data_witness :
    ∃ items : List BatchItem,
      batchHandler (.jarr [.jstr "a"])
          (.ok ⟨[⟨[]⟩, ⟨[]⟩, ⟨[]⟩], .undefined, "m"⟩)
        = ⟨200, .batchOk items .undefined "m" 3, 1⟩
      ∧ items.length = 3 :=
  batch_total_matches_data [.jstr "a"] ⟨[⟨[]⟩, ⟨[]⟩, ⟨[]⟩], .undefined, "m"⟩
    (by simp) (by simp)

/-- C5: batch validation: the empty `texts` array is answered 400 with
the missing/empty message and no provider call; length 2049 is answered
400 with the too-many message and no provider call; length exactly 2048
passes validation and, on provider success, is answered 200 (with the
one provider call made). -/
theorem batch_validation_bounds (p : Except Thrown EmbeddingsResp) :
    batchHandler (.jarr []) p
      = ⟨400, .errOnly "Texts array is required and must not be empty", 0⟩
    ∧ (∀ ts : List JVal, ts.length = 2049 →
        batchHandler (.jarr ts) p
          = ⟨400, .errOnly "Maximum 2048 texts allowed per batch", 0⟩)
    ∧ (∀ ts : List JVal, ∀ r : EmbeddingsResp, ts.length = 2048 →
        (batchHandler (.jarr ts) (.ok r)).status = 200
          ∧ (batchHandler (.jarr ts) (.ok r)).providerCalls = 1) := by
  refine ⟨rfl, ?_, ?_⟩
  · intro ts hlen
    rw [batchHandler.eq_def]
    have hc : (!toBoolean (.jarr ts) || !isArray (.jarr ts)
        || ((arrayElems (.jarr ts)).length == 0)) = false := by
      simp [toBoolean, isArray, arrayElems, hlen]
    rw [hc]
    rw [if_neg (by simp)]
    rw [if_pos (by simp [arrayElems, hlen])]
  · intro ts r hlen
    rw [batchHandler_ok_of_valid ts r (by omega) (by omega)]
    exact ⟨rfl, rfl⟩

set_option maxRecDepth 40000 in
/-- Closed instance of C5 at lengths 0, 2049 and 2048. -/
theorem batch_validation_bounds_witness :
    batchHandler (.jarr []) (.error .nonError)
      = ⟨400, .errOnly "Texts array is required and must not be empty", 0⟩
    ∧ batchHandler (.jarr (List.replicate 2049 .jnull)) (.error .nonError)
      = ⟨400, .errOnly "Maximum 2048 texts allowed per batch", 0⟩
    ∧ (batchHandler (.jarr (List.replicate 2048 .jnull))
        (.ok ⟨[], .undefined, "m"⟩)).status = 200 :=
  ⟨(batch_validation_bounds (.error .nonError)).1,
    (batch_validation_bounds (.error .nonError)).2.1 _
      (List.length_replicate 2049 .jnull),
    ((batch_validation_bounds (.error .nonError)).2.2 _ ⟨[], .undefined, "m"⟩
      (List.length_replicate 2048 .jnull)).1⟩

/-- C6: when the required field is absent (destructuring yields
`undefined`), each handler answers 400 with an `error` body and the
provider client is invoked zero times, whatever the provider would
have returned. -/
theorem missing_required_field_400
    (pc : Except Thrown ChatCompletionResp) (pp : Except Thrown CompletionResp)
    (ps : Except Thrown EmbeddingsResp) (w : JVal) :
    chatHandler .undefined pc = ⟨400, .errOnly "Message is required", 0⟩
    ∧ completionHandler .undefined pp = ⟨400, .errOnly "Prompt is required", 0⟩
    ∧ similarityHandler .undefined w ps
        = ⟨400, .errOnly "Both text1 and text2 are required", 0⟩
    ∧ similarityHandler w .undefined ps
        = ⟨400, .errOnly "Both text1 and text2 are required", 0⟩ := by
  refine ⟨rfl, rfl, rfl, ?_⟩
  simp [similarityHandler, toBoolean]

/-- Closed instance of C6: absent `message` on the chat route and
absent `text2` on the similarity route. -/
theorem missing_required_field_400_witness :
    chatHandler .undefined (.ok ⟨[], .undefined, "m"⟩)
      = ⟨400, .errOnly "Message is required", 0⟩
    ∧ similarityHandler (.jstr "x") .undefined (.error .nonError)
      = ⟨400, .errOnly "Both text1 and text2 are required", 0⟩ :=
  ⟨(missing_required_field_400 (.ok ⟨[], .undefined, "m"⟩)
      (.ok ⟨[], .undefined, "m"⟩) (.error .nonError) (.jstr "x")).1,
    (missing_required_field_400 (.ok ⟨[], .undefined, "m"⟩)
      (.ok ⟨[], .undefined, "m"⟩) (.error .nonError) (.jstr "x")).2.2.2⟩

/-- C9: required-field validation rejects every falsy value, not only
absence: the empty string, 0, false and null are all falsy, and any
falsy field value yields the same 400 body with zero provider calls. -/
theorem falsy_required_field_400 (v w : JVal) (hv : toBoolean v = false)
    (pc : Except Thrown ChatCompletionResp) (pp : Except Thrown CompletionResp)
    (ps : Except Thrown EmbeddingsResp) :
    toBoolean (.jstr "") = false ∧ toBoolean (.jnum 0) = false
    ∧ toBoolean (.jbool false) = false ∧ toBoolean .jnull = false
    ∧ chatHandler v pc = ⟨400, .errOnly "Message is required", 0⟩
    ∧ completionHandler v pp = ⟨400, .errOnly "Prompt is required", 0⟩
    ∧ similarityHandler v w ps
        = ⟨400, .errOnly "Both text1 and text2 are required", 0⟩
    ∧ similarityHandler w v ps
        = ⟨400, .errOnly "Both text1 and text2 are required", 0⟩ := by
  refine ⟨by simp [toBoolean], by simp [toBoolean], rfl, rfl, ?_, ?_, ?_, ?_⟩
  · simp [chatHandler, hv]
  · simp [completionHandler, hv]
  · simp [similarityHandler, hv]
  · simp [similarityHandler, hv]

/-- Closed instance of C9 at the empty string. -/
theorem falsy_required_field_400_witness :
    chatHandler (.jstr "") (.ok ⟨[], .undefined, "m"⟩)
      = ⟨400, .errOnly "Message is required", 0⟩
    ∧ completionHandler (.jstr "") (.ok ⟨[], .undefined, "m"⟩)
      = ⟨400, .errOnly "Prompt is required", 0⟩ :=
  ⟨(falsy_required_field_400 (.jstr "") (.jstr "x") (by simp [toBoolean])
      (.ok ⟨[], .undefined, "m"⟩) (.ok ⟨[], .undefined, "m"⟩)
      (.ok ⟨[], .undefined, "m"⟩)).2.2.2.2.1,
    (falsy_required_field_400 (.jstr "") (.jstr "x") (by simp [toBoolean])
      (.ok ⟨[], .undefined, "m"⟩) (.ok ⟨[], .undefined, "m"⟩)
      (.ok ⟨[], .undefined, "m"⟩)).2.2.2.2.2.1⟩

/-- C7: on every route that calls the provider, a provider failure is
answered 500 with the route's fixed `error` message and `details` equal
to the thrown Error's message verbatim, or "Unknown error" when the
thrown value carries no message; no failure is swallowed. -/
theorem provider_error_500 (e : Thrown) (m p t1 t2 text : JVal)
    (ts : List JVal)
    (hm : toBoolean m = true) (hp : toBoolean p = true)
    (h1 : toBoolean t1 = true) (h2 : toBoolean t2 = true)
    (ht : toBoolean text = true)
    (hts1 : 1 ≤ ts.length) (hts2 : ts.length ≤ 2048) :
    (∀ s : String, errorDetails (.errObj s) = s)
    ∧ errorDetails .nonError = "Unknown error"
    ∧ chatHandler m (.error e)
        = ⟨500, .errDetails "Failed to get response from OpenAI" (errorDetails e), 1⟩
    ∧ completionHandler p (.error e)
        = ⟨500, .errDetails "Failed to get completion from OpenAI" (errorDetails e), 1⟩
    ∧ modelsHandler (.error e)
        = ⟨500, .errDetails "Failed to fetch models from OpenAI" (errorDetails e), 1⟩
    ∧ embeddingHandlerNoCheck text (.error e)
        = ⟨500, .errDetails "Failed to get embedding from OpenAI" (errorDetails e), 1⟩
    ∧ embeddingHandlerChecked text (.error e)
        = ⟨500, .errDetails "Failed to get embedding from OpenAI" (errorDetails e), 1⟩
    ∧ batchHandler (.jarr ts) (.error e)
        = ⟨500, .errDetails "Failed to get batch embeddings from OpenAI" (errorDetails e), 1⟩
    ∧ similarityHandler t1 t2 (.error e)
        = ⟨500, .errDetails "Failed to calculate embedding similarity" (errorDetails e), 1⟩ := by
  refine ⟨fun s => rfl, rfl, ?_, ?_, rfl, rfl, ?_, ?_, ?_⟩
  · simp [chatHandler, hm]
  · simp [completionHandler, hp]
  · simp [embeddingHandlerChecked, ht]
  · rw [batchHandler]
    have hc : (!toBoolean (.jarr ts) || !isArray (.jarr ts)
        || ((arrayElems (.jarr ts)).length == 0)) = false := by
      have h0 : ts.length ≠ 0 := by omega
      simp [toBoolean, isArray, arrayElems, h0]
    rw [hc]
    rw [if_neg (by simp)]
    rw [if_neg (by simpa [arrayElems] using not_lt.mpr hts2)]
  · simp [similarityHandler, h1, h2]

/-- Closed instance of C7: an Error with message "boom" on the chat and
similarity routes, and a message-less thrown value on the models route. -/
theorem provider_error_500_witness :
    chatHandler (.jstr "hi") (.error (.errObj "boom"))
      = ⟨500, .errDetails "Failed to get response from OpenAI" "boom", 1⟩
    ∧ modelsHandler (.error .nonError)
      = ⟨500, .errDetails "Failed to fetch models from OpenAI" "Unknown error", 1⟩
    ∧ similarityHandler (.jstr "x") (.jstr "y") (.error (.errObj "boom"))
      = ⟨500, .errDetails "Failed to calculate embedding similarity" "boom", 1⟩ :=
  ⟨(provider_error_500 (.errObj "boom") (.jstr "hi") (.jstr "hi") (.jstr "x")
      (.jstr "y") (.jstr "t") [.jstr "a"] (by simp [toBoolean])
      (by simp [toBoolean]) (by simp [toBoolean]) (by simp [toBoolean])
      (by simp [toBoolean]) (by simp) (by simp)).2.2.1,
    (provider_error_500 .nonError (.jstr "hi") (.jstr "hi") (.jstr "x")
      (.jstr "y") (.jstr "t") [.jstr "a"] (by simp [toBoolean])
      (by simp [toBoolean]) (by simp [toBoolean]) (by simp [toBoolean])
      (by simp [toBoolean]) (by simp) (by simp)).2.2.2.2.1,
    (provider_error_500 (.errObj "boom") (.jstr "hi") (.jstr "hi") (.jstr "x")
      (.jstr "y") (.jstr "t") [.jstr "a"] (by simp [toBoolean])
      (by simp [toBoolean]) (by simp [toBoolean]) (by simp [toBoolean])
      (by simp [toBoolean]) (by simp) (by simp)).2.2.2.2.2.2.2.2⟩

/-- C8: `/api/embedding` has one variant that treats `text` as optional
(the provider is called and the raw result returned even when `text` is
absent) and one that requires it (400 with no provider call when
absent); on success both return the provider's embedding result
unmodified as the value of the `embedding` key. -/
theorem embedding_text_optional_or_required (r : EmbeddingsResp) (t : JVal)
    (ht : toBoolean t = true) (p : Except Thrown EmbeddingsResp) :
    embeddingHandlerNoCheck .undefined (.ok r) = ⟨200, .embeddingRaw r, 1⟩
    ∧ embeddingHandlerNoCheck t (.ok r) = ⟨200, .embeddingRaw r, 1⟩
    ∧ embeddingHandlerChecked .undefined p = ⟨400, .errOnly "Text is required", 0⟩
    ∧ embeddingHandlerChecked t (.ok r) = ⟨200, .embeddingRaw r, 1⟩ := by
  refine ⟨rfl, rfl, rfl, ?_⟩
  simp [embeddingHandlerChecked, ht]

/-- Closed instance of C8 at `text = "hello"`. -/
theorem embedding_text_optional_or_required_witness :
    embeddingHandlerNoCheck .undefined (.ok ⟨[], .undefined, "m"⟩)
      = ⟨200, .embeddingRaw ⟨[], .undefined, "m"⟩, 1⟩
    ∧ embeddingHandlerChecked (.jstr "hello") (.ok ⟨[], .undefined, "m"⟩)
      = ⟨200, .embeddingRaw ⟨[], .undefined, "m"⟩, 1⟩ :=
  ⟨(embedding_text_optional_or_required ⟨[], .undefined, "m"⟩ (.jstr "hello")
      (by simp [toBoolean]) (.error .nonError)).1,
    (embedding_text_optional_or_required ⟨[], .undefined, "m"⟩ (.jstr "hello")
      (by simp [toBoolean]) (.error .nonError)).2.2.2⟩

end Gateway
